import Mathlib

/-!
Verification of the octant lazy watch cache (package cache) and the
cluster-overview terminal describer (package clusteroverview).

The watch cache implementation is exercised by src/unnamed/part_000
(watch_test.go); the `Watch` type itself is not part of the provided
sources, so its operations are modelled from the specification
(spec sections 3-7), using the structure visible in the tests
(fields watchedGVKs, cachedObjects, backendCache, initFactoryFunc and the
constructor NewWatch with its List/Get read surface).
-/

namespace cache

/-- Identity of a resource request, mirroring cacheutil.Key
(Namespace, APIVersion, Kind, Name; Name empty means a collection). -/
structure Key where
  Namespace : String
  APIVersion : String
  Kind : String
  Name : String
deriving DecidableEq, Repr

/-- Partition identity: group, version, kind. -/
structure GroupVersionKind where
  Group : String
  Version : String
  Kind : String
deriving DecidableEq, Repr

/-- Group/kind pair handed to the resource resolver. -/
structure GroupKind where
  Group : String
  Kind : String
deriving DecidableEq, Repr

/-- Concrete watchable-resource identifier returned by the resolver. -/
structure GroupVersionResource where
  Group : String
  Version : String
  Resource : String
deriving DecidableEq, Repr

/-- Split a character list on a separator character. -/
def splitChars (sep : Char) : List Char → List (List Char)
  | [] => [[]]
  | c :: rest =>
    if c = sep then [] :: splitChars sep rest
    else
      match splitChars sep rest with
      | [] => [[c]]
      | g :: gs => (c :: g) :: gs

/-- Split an APIVersion string into (group, version): one component means
a core-group version, two components mean group/version, anything else
yields the empty group and version. -/
def parseAPIVersion (s : String) : String × String :=
  match (splitChars '/' s.data).map String.mk with
  | [v] => ("", v)
  | [g, v] => (g, v)
  | _ => ("", "")

/-- Derive the Partition (group, version, kind) of a Key. -/
def Key.GroupVersionKind (k : Key) : GroupVersionKind :=
  ⟨(parseAPIVersion k.APIVersion).1, (parseAPIVersion k.APIVersion).2, k.Kind⟩

/-- Forget the version of a Partition. -/
def GroupVersionKind.GroupKind (g : GroupVersionKind) : GroupKind :=
  ⟨g.Group, g.Kind⟩

/-- Stable object identity. -/
abbrev UID := String

/-- A cached object: namespace, name, UID and opaque attributes. -/
structure Object where
  Namespace : String
  Name : String
  UID : UID
  attrs : List (String × String)
deriving DecidableEq, Repr

/-- Error taxonomy of the read path (spec section 7): resolution errors,
establishment errors, backend errors, and the distinguished
not-found condition. -/
inductive CacheError where
  | resolutionError (msg : String)
  | establishmentError (msg : String)
  | backendError (msg : String)
  | notFound
deriving DecidableEq, Repr

/-- Whether an Except is a success. -/
def exceptOk {ε α : Type} : Except ε α → Bool
  | .ok _ => true
  | .error _ => false

/-- Inner object mapping of one partition, keyed by UID. -/
abbrev ObjectMap := List (UID × Object)

/-- Two-level cache store contents: partition to UID to object. -/
abbrev CacheContents := List (GroupVersionKind × ObjectMap)

/-- Lookup the object map of a partition. -/
def lookupGVK : CacheContents → GroupVersionKind → Option ObjectMap
  | [], _ => none
  | p :: rest, g => if p.1 = g then some p.2 else lookupGVK rest g

/-- Membership test for a UID in an object map. -/
def containsUID : ObjectMap → UID → Bool
  | [], _ => false
  | p :: rest, u => p.1 == u || containsUID rest u

/-- Insert or replace an object keyed by its UID (map-write semantics). -/
def upsertUID (o : Object) : ObjectMap → ObjectMap
  | [] => [(o.UID, o)]
  | p :: rest => if p.1 = o.UID then (p.1, o) :: rest else p :: upsertUID o rest

/-- Remove every entry keyed by a UID; absent UIDs are a no-op. -/
def removeUID (u : UID) : ObjectMap → ObjectMap
  | [] => []
  | p :: rest => if p.1 = u then removeUID u rest else p :: removeUID u rest

/-- Upsert an object into the partition's map, creating the partition
entry when absent. -/
def cacheUpsert (gvk : GroupVersionKind) (o : Object) :
    CacheContents → CacheContents
  | [] => [(gvk, [(o.UID, o)])]
  | p :: rest =>
    if p.1 = gvk then (p.1, upsertUID o p.2) :: rest
    else p :: cacheUpsert gvk o rest

/-- Remove a UID from the partition's map; missing partitions or UIDs
are a no-op. -/
def cacheRemove (gvk : GroupVersionKind) (u : UID) :
    CacheContents → CacheContents
  | [] => []
  | p :: rest =>
    if p.1 = gvk then (p.1, removeUID u p.2) :: cacheRemove gvk u rest
    else p :: cacheRemove gvk u rest

/-- All objects stored under a partition. -/
def cachedValues (c : CacheContents) (gvk : GroupVersionKind) : List Object :=
  match lookupGVK c gvk with
  | none => []
  | some m => m.map (fun p => p.2)

/-- Namespace (and optional name) filter of the query operation. -/
def matchesQuery (ns : String) (name : Option String) (o : Object) : Bool :=
  o.Namespace == ns &&
    (match name with
     | none => true
     | some n => o.Name == n)

/-- query(partition, namespace, optionalName): the matching objects,
empty (not an error) when the partition or the match set is empty. -/
def queryCache (c : CacheContents) (gvk : GroupVersionKind)
    (ns : String) (name : Option String) : List Object :=
  (cachedValues c gvk).filter (matchesQuery ns name)

/-- Watch state: the Watched-Partitions Set (watchedGVKs), the cache
store contents (cachedObjects), and ghost records of which partitions
have a handler attached and delivery started. -/
structure WatchState where
  watchedGVKs : List GroupVersionKind
  cachedObjects : CacheContents
  attachedHandlers : List GroupVersionKind
  startedGVKs : List GroupVersionKind
deriving DecidableEq, Repr

/-- NewWatch: both the Watched-Partitions Set and the Cache Store start
empty. -/
def initWatch : WatchState := ⟨[], [], [], []⟩

/-- Add/Update/Delete notifications consumed by the event handler. -/
inductive Event where
  | add (o : Object)
  | update (o : Object)
  | delete (u : UID)
deriving DecidableEq, Repr

/-- Event handler: Add and Update both resolve to an upsert keyed by the
object's UID; Delete removes by UID. -/
def applyEvent (s : WatchState) (gvk : GroupVersionKind) (e : Event) :
    WatchState :=
  match e with
  | .add o => { s with cachedObjects := cacheUpsert gvk o s.cachedObjects }
  | .update o => { s with cachedObjects := cacheUpsert gvk o s.cachedObjects }
  | .delete u => { s with cachedObjects := cacheRemove gvk u s.cachedObjects }

/-- External collaborators (spec section 6): resource resolver, watch
factory (stream creation, handler attachment, delivery start) and the
authoritative backend store. -/
structure Env where
  resolve : GroupKind → Except CacheError GroupVersionResource
  forResource : GroupVersionResource → Except CacheError Unit
  attachHandler : GroupVersionKind → Except CacheError Unit
  startDelivery : GroupVersionKind → Except CacheError Unit
  backendList : Key → Except CacheError (List Object)
  backendGet : Key → Except CacheError Object

/-- Observable collaborator calls made by one List/Get call. -/
structure Trace where
  resolutions : Nat
  attachments : Nat
  starts : Nat
  backendCalls : Nat
deriving DecidableEq, Repr

/-- The empty trace. -/
def Trace.zero : Trace := ⟨0, 0, 0, 0⟩

/-- The state after a successful establishment: the partition joins the
Watched-Partitions Set, the attached-handlers record and the
started-delivery record. -/
def markEstablished (s : WatchState) (gvk : GroupVersionKind) : WatchState :=
  { s with
      watchedGVKs := gvk :: s.watchedGVKs
      attachedHandlers := gvk :: s.attachedHandlers
      startedGVKs := gvk :: s.startedGVKs }

/-- Modelled from the spec: the informer lifecycle manager
(spec section 4.4; the Go implementation of Watch.watchKey is not among
the provided sources). Steps: resolve the partition, obtain the stream,
attach the event handler, start delivery; only when all succeed is the
partition marked watched, and any failure leaves no state mutated
(rollback per section 9). -/
def establishWatch (env : Env) (s : WatchState) (gvk : GroupVersionKind) :
    Except CacheError WatchState × Trace :=
  match env.resolve gvk.GroupKind with
  | .error e => (.error e, ⟨1, 0, 0, 0⟩)
  | .ok gvr =>
    match env.forResource gvr with
    | .error e => (.error e, ⟨1, 0, 0, 0⟩)
    | .ok _ =>
      match env.attachHandler gvk with
      | .error e => (.error e, ⟨1, 1, 0, 0⟩)
      | .ok _ =>
        match env.startDelivery gvk with
        | .error e => (.error e, ⟨1, 1, 1, 0⟩)
        | .ok _ => (.ok (markEstablished s gvk), ⟨1, 1, 1, 0⟩)

/-- Modelled from the spec: Watch.List (spec section 4.5; the Go
implementation is not among the provided sources). A watched partition
is served from the cache store with no collaborator calls; an unwatched
one is established and then answered by one backend List whose result is
returned verbatim. -/
def watchList (env : Env) (s : WatchState) (key : Key) :
    Except CacheError (List Object) × WatchState × Trace :=
  if key.GroupVersionKind ∈ s.watchedGVKs then
    (.ok (queryCache s.cachedObjects key.GroupVersionKind key.Namespace none),
     s, Trace.zero)
  else
    match establishWatch env s key.GroupVersionKind with
    | (.error e, t) => (.error e, s, t)
    | (.ok s1, t) =>
      match env.backendList key with
      | .error e =>
        (.error e, s1, ⟨t.resolutions, t.attachments, t.starts, t.backendCalls + 1⟩)
      | .ok objs =>
        (.ok objs, s1, ⟨t.resolutions, t.attachments, t.starts, t.backendCalls + 1⟩)

/-- Modelled from the spec: Watch.Get (spec section 4.5; the Go
implementation is not among the provided sources). Mirrors List with the
Key's Name required; on a watched partition a miss is the distinguished
not-found condition. -/
def watchGet (env : Env) (s : WatchState) (key : Key) :
    Except CacheError Object × WatchState × Trace :=
  if key.GroupVersionKind ∈ s.watchedGVKs then
    match queryCache s.cachedObjects key.GroupVersionKind key.Namespace
        (some key.Name) with
    | [] => (.error .notFound, s, Trace.zero)
    | o :: _ => (.ok o, s, Trace.zero)
  else
    match establishWatch env s key.GroupVersionKind with
    | (.error e, t) => (.error e, s, t)
    | (.ok s1, t) =>
      match env.backendGet key with
      | .error e =>
        (.error e, s1, ⟨t.resolutions, t.attachments, t.starts, t.backendCalls + 1⟩)
      | .ok o =>
        (.ok o, s1, ⟨t.resolutions, t.attachments, t.starts, t.backendCalls + 1⟩)

/-- States reachable from a fresh Watch by List calls, Get calls and
delivered events, under arbitrary collaborator behaviour. -/
inductive Reachable : WatchState → Prop where
  | init : Reachable initWatch
  | listStep (env : Env) (key : Key) (s : WatchState) :
      Reachable s → Reachable (watchList env s key).2.1
  | getStep (env : Env) (key : Key) (s : WatchState) :
      Reachable s → Reachable (watchGet env s key).2.1
  | eventStep (gvk : GroupVersionKind) (e : Event) (s : WatchState) :
      Reachable s → Reachable (applyEvent s gvk e)

/-- n sequential List calls for the same key (the establishment guard of
spec section 5 serializes racing first-access callers), returning the
final state and the total number of handler attachments observed. -/
def runLists (env : Env) (key : Key) : Nat → WatchState → WatchState × Nat
  | 0, s => (s, 0)
  | n + 1, s =>
    ((runLists env key n (watchList env s key).2.1).1,
     (watchList env s key).2.2.attachments +
       (runLists env key n (watchList env s key).2.1).2)

/-- Replaying the same Add event n times. -/
def replayAdd (gvk : GroupVersionKind) (o : Object) :
    Nat → WatchState → WatchState
  | 0, s => s
  | n + 1, s => applyEvent (replayAdd gvk o n s) gvk (Event.add o)

/-- Pods partition used by the concrete scenarios of the tests. -/
def podGVK : GroupVersionKind := ⟨"", "v1", "Pod"⟩

/-- pods resource identifier used by the concrete scenarios. -/
def podGVR : GroupVersionResource := ⟨"", "v1", "pods"⟩

/-- pod1 in namespace test. -/
def pod1 : Object := ⟨"test", "pod1", "uid-1", []⟩

/-- pod2 in namespace test. -/
def pod2 : Object := ⟨"test", "pod2", "uid-2", []⟩

/-- List key of the tests: namespace test, v1, Pod. -/
def listKey : Key := ⟨"test", "v1", "Pod", ""⟩

/-- Get key of the tests: namespace test, v1, Pod, name pod1. -/
def getKey : Key := ⟨"test", "v1", "Pod", "pod1"⟩

/-- Collaborators in which every step succeeds, mirroring the mocks of
Test_WatchList_not_cached. -/
def demoEnv : Env where
  resolve := fun gk =>
    if gk = ⟨"", "Pod"⟩ then .ok podGVR
    else .error (.resolutionError "unknown kind")
  forResource := fun _ => .ok ()
  attachHandler := fun _ => .ok ()
  startDelivery := fun _ => .ok ()
  backendList := fun _ => .ok [pod1, pod2]
  backendGet := fun _ => .ok pod1

/-- Collaborators whose resolver rejects every kind. -/
def failResolveEnv : Env where
  resolve := fun _ => .error (.resolutionError "unknown kind")
  forResource := fun _ => .ok ()
  attachHandler := fun _ => .ok ()
  startDelivery := fun _ => .ok ()
  backendList := fun _ => .ok []
  backendGet := fun _ => .ok pod1

/-- Collaborators whose backend store fails although establishment
succeeds. -/
def failBackendEnv : Env where
  resolve := fun gk =>
    if gk = ⟨"", "Pod"⟩ then .ok podGVR
    else .error (.resolutionError "unknown kind")
  forResource := fun _ => .ok ()
  attachHandler := fun _ => .ok ()
  startDelivery := fun _ => .ok ()
  backendList := fun _ => .error (.backendError "connection refused")
  backendGet := fun _ => .error (.backendError "connection refused")

/-- A watched state holding pod1 and pod2 in the pods partition,
mirroring the seeded cache of Test_WatchList_cached. -/
def cachedState : WatchState :=
  ⟨[podGVK], [(podGVK, [("uid-1", pod1), ("uid-2", pod2)])], [podGVK], [podGVK]⟩

end cache

namespace clusteroverview

/-- store.Key of a terminal (namespace, apiVersion, kind, name). -/
structure Key where
  Namespace : String
  APIVersion : String
  Kind : String
  Name : String
deriving DecidableEq, Repr

/-- One terminal known to the terminal manager. -/
structure Terminal where
  key : Key
  Container : String
  Command : String
  ID : String
  CreatedAt : Nat
deriving DecidableEq, Repr

/-- Mutable part of a link component. -/
structure LinkConfig where
  Text : String
  Ref : String
deriving DecidableEq, Repr

/-- A link component produced by Link.ForGVK. -/
structure Link where
  Config : LinkConfig
deriving DecidableEq, Repr

/-- One row of the Terminals table: the Container link and the Command,
ID and Age cells. -/
structure TableRow where
  Container : Link
  Command : String
  ID : String
  Age : Nat
deriving DecidableEq, Repr

/-- The Terminals table: title, empty-placeholder, columns, rows. -/
structure Table where
  title : String
  placeholder : String
  cols : List String
  rows : List TableRow
deriving DecidableEq, Repr

/-- A list component holding tables. -/
structure ListComponent where
  title : String
  items : List Table
deriving DecidableEq, Repr

/-- The content response returned by a describer. -/
structure ContentResponse where
  Components : List ListComponent
deriving DecidableEq, Repr

/-- component.EmptyContentResponse. -/
def EmptyContentResponse : ContentResponse := ⟨[]⟩

/-- Describer options: the terminal manager's list and the link
generator options.Link.ForGVK (namespace, apiVersion, kind, name, text). -/
structure Options where
  terminals : List Terminal
  ForGVK : String → String → String → String → String → Except String Link

/-- The link Describe requests for one terminal: ForGVK on the
terminal's key, with the key's name as both name and text. -/
def linkFor (opts : Options) (t : Terminal) : Except String Link :=
  opts.ForGVK t.key.Namespace t.key.APIVersion t.key.Kind t.key.Name t.key.Name

/-- The table row Describe builds for a terminal: the returned link with
its text overwritten by the container, then Command, ID and Age cells. -/
def rowFor (t : Terminal) (l : Link) : TableRow :=
  ⟨⟨⟨t.Container, l.Config.Ref⟩⟩, t.Command, t.ID, t.CreatedAt⟩

/-- The loop of Describe: builds one row per terminal in order and stops
at the first ForGVK error. -/
def buildRows (opts : Options) : List Terminal → Except String (List TableRow)
  | [] => .ok []
  | t :: rest =>
    match linkFor opts t with
    | .error e => .error e
    | .ok l =>
      match buildRows opts rest with
      | .error e => .error e
      | .ok rows => .ok (rowFor t l :: rows)

/-- The column titles of the Terminals table. -/
def terminalCols : List String := ["Container", "Command", "ID", "Age"]

/-- The successful response of Describe: one list holding the Terminals
table with the given rows. -/
def responseWith (rows : List TableRow) : ContentResponse :=
  ⟨[⟨"Terminals", [⟨"Terminals", "There are no terminals!", terminalCols, rows⟩]⟩]⟩

/-- TerminalListDescriber.Describe: walks the terminal manager's list,
returning EmptyContentResponse with the first link error, or the list
with the Terminals table and no error. -/
def Describe (opts : Options) : ContentResponse × Option String :=
  match buildRows opts opts.terminals with
  | .error e => (EmptyContentResponse, some e)
  | .ok rows => (responseWith rows, none)

/-- A terminal used in concrete scenarios. -/
def demoTerminal : Terminal :=
  ⟨⟨"default", "v1", "Pod", "pod1"⟩, "shell", "/bin/sh", "term-1", 7⟩

/-- Options whose link generator always succeeds. -/
def demoOptions : Options where
  terminals := [demoTerminal]
  ForGVK := fun _ _ _ name text => .ok ⟨⟨text, name⟩⟩

/-- Options whose link generator always fails. -/
def failOptions : Options where
  terminals := [demoTerminal]
  ForGVK := fun _ _ _ _ _ => .error "link error"

end clusteroverview

namespace cache

/-- Helper: a fully successful collaborator run makes establishWatch mark
the partition and report one resolution, one attachment and one start. -/
theorem establishWatch_ok (env : Env) (s : WatchState) (gvk : GroupVersionKind)
    (gvr : GroupVersionResource)
    (hres : env.resolve gvk.GroupKind = .ok gvr)
    (hfor : env.forResource gvr = .ok ())
    (hatt : env.attachHandler gvk = .ok ())
    (hstart : env.startDelivery gvk = .ok ()) :
    establishWatch env s gvk = (.ok (markEstablished s gvk), ⟨1, 1, 1, 0⟩) := by
  simp [establishWatch, hres, hfor, hatt, hstart]

/-- Helper: establishWatch either fails or yields exactly the marked
state with trace (1,1,1,0). -/
theorem establishWatch_cases (env : Env) (s : WatchState)
    (gvk : GroupVersionKind) :
    (∃ e t, establishWatch env s gvk = (.error e, t)) ∨
    establishWatch env s gvk = (.ok (markEstablished s gvk), ⟨1, 1, 1, 0⟩) := by
  cases hr : env.resolve gvk.GroupKind with
  | error e => exact Or.inl ⟨e, ⟨1, 0, 0, 0⟩, by simp [establishWatch, hr]⟩
  | ok gvr =>
    cases hf : env.forResource gvr with
    | error e => exact Or.inl ⟨e, ⟨1, 0, 0, 0⟩, by simp [establishWatch, hr, hf]⟩
    | ok u =>
      cases u
      cases ha : env.attachHandler gvk with
      | error e => exact Or.inl ⟨e, ⟨1, 1, 0, 0⟩, by simp [establishWatch, hr, hf, ha]⟩
      | ok u2 =>
        cases u2
        cases hd : env.startDelivery gvk with
        | error e => exact Or.inl ⟨e, ⟨1, 1, 1, 0⟩, by simp [establishWatch, hr, hf, ha, hd]⟩
        | ok u3 =>
          cases u3
          exact Or.inr (by simp [establishWatch, hr, hf, ha, hd])

/-- Helper: a successful establishWatch implies every collaborator step
succeeded, and pins down the resulting state and trace. -/
theorem establishWatch_ok_inv (env : Env) (s : WatchState)
    (gvk : GroupVersionKind) (s1 : WatchState) (t : Trace)
    (h : establishWatch env s gvk = (.ok s1, t)) :
    (∃ gvr, env.resolve gvk.GroupKind = .ok gvr ∧
      env.forResource gvr = .ok ()) ∧
    env.attachHandler gvk = .ok () ∧
    env.startDelivery gvk = .ok () ∧
    s1 = markEstablished s gvk ∧ t = ⟨1, 1, 1, 0⟩ := by
  cases hr : env.resolve gvk.GroupKind with
  | error e => simp [establishWatch, hr] at h
  | ok gvr =>
    cases hf : env.forResource gvr with
    | error e => simp [establishWatch, hr, hf] at h
    | ok u =>
      cases u
      cases ha : env.attachHandler gvk with
      | error e => simp [establishWatch, hr, hf, ha] at h
      | ok u2 =>
        cases u2
        cases hd : env.startDelivery gvk with
        | error e => simp [establishWatch, hr, hf, ha, hd] at h
        | ok u3 =>
          cases u3
          have h2 := establishWatch_ok env s gvk gvr hr hf ha hd
          rw [h2] at h
          simp only [Prod.mk.injEq, Except.ok.injEq] at h
          exact ⟨⟨gvr, rfl, hf⟩, rfl, rfl, h.1.symm, h.2.symm⟩

/-- Helper: a List on a watched partition reads only the cache. -/
theorem watchList_watched (env : Env) (s : WatchState) (key : Key)
    (hw : key.GroupVersionKind ∈ s.watchedGVKs) :
    watchList env s key =
      (.ok (queryCache s.cachedObjects key.GroupVersionKind key.Namespace none),
       s, Trace.zero) := by
  unfold watchList
  rw [if_pos hw]

/-- Helper: a Get on a watched partition reads only the cache. -/
theorem watchGet_watched (env : Env) (s : WatchState) (key : Key)
    (hw : key.GroupVersionKind ∈ s.watchedGVKs) :
    watchGet env s key =
      (match queryCache s.cachedObjects key.GroupVersionKind key.Namespace
          (some key.Name) with
       | [] => (.error .notFound, s, Trace.zero)
       | o :: _ => (.ok o, s, Trace.zero)) := by
  unfold watchGet
  rw [if_pos hw]

/-- Helper: when establishment fails, List surfaces the error with the
state untouched. -/
theorem watchList_establish_error (env : Env) (s : WatchState) (key : Key)
    (e : CacheError) (t : Trace)
    (hw : key.GroupVersionKind ∉ s.watchedGVKs)
    (h : establishWatch env s key.GroupVersionKind = (.error e, t)) :
    watchList env s key = (.error e, s, t) := by
  unfold watchList
  rw [if_neg hw, h]

/-- Helper: when establishment fails, Get surfaces the error with the
state untouched. -/
theorem watchGet_establish_error (env : Env) (s : WatchState) (key : Key)
    (e : CacheError) (t : Trace)
    (hw : key.GroupVersionKind ∉ s.watchedGVKs)
    (h : establishWatch env s key.GroupVersionKind = (.error e, t)) :
    watchGet env s key = (.error e, s, t) := by
  unfold watchGet
  rw [if_neg hw, h]

/-- Helper: first access with successful establishment and backend List
returns the backend result with trace (1,1,1,1) and the marked state. -/
theorem watchList_success (env : Env) (s : WatchState) (key : Key)
    (gvr : GroupVersionResource) (objs : List Object)
    (hw : key.GroupVersionKind ∉ s.watchedGVKs)
    (hres : env.resolve key.GroupVersionKind.GroupKind = .ok gvr)
    (hfor : env.forResource gvr = .ok ())
    (hatt : env.attachHandler key.GroupVersionKind = .ok ())
    (hstart : env.startDelivery key.GroupVersionKind = .ok ())
    (hbl : env.backendList key = .ok objs) :
    watchList env s key =
      (.ok objs, markEstablished s key.GroupVersionKind, ⟨1, 1, 1, 1⟩) := by
  unfold watchList
  rw [if_neg hw, establishWatch_ok env s key.GroupVersionKind gvr hres hfor hatt hstart, hbl]

/-- Helper: first access with successful establishment and backend Get
returns the backend result with trace (1,1,1,1) and the marked state. -/
theorem watchGet_success (env : Env) (s : WatchState) (key : Key)
    (gvr : GroupVersionResource) (o : Object)
    (hw : key.GroupVersionKind ∉ s.watchedGVKs)
    (hres : env.resolve key.GroupVersionKind.GroupKind = .ok gvr)
    (hfor : env.forResource gvr = .ok ())
    (hatt : env.attachHandler key.GroupVersionKind = .ok ())
    (hstart : env.startDelivery key.GroupVersionKind = .ok ())
    (hbg : env.backendGet key = .ok o) :
    watchGet env s key =
      (.ok o, markEstablished s key.GroupVersionKind, ⟨1, 1, 1, 1⟩) := by
  unfold watchGet
  rw [if_neg hw, establishWatch_ok env s key.GroupVersionKind gvr hres hfor hatt hstart, hbg]

/-- Helper: first access with successful establishment but a failing
backend List surfaces the backend error on the marked state. -/
theorem watchList_backend_error (env : Env) (s : WatchState) (key : Key)
    (gvr : GroupVersionResource) (e : CacheError)
    (hw : key.GroupVersionKind ∉ s.watchedGVKs)
    (hres : env.resolve key.GroupVersionKind.GroupKind = .ok gvr)
    (hfor : env.forResource gvr = .ok ())
    (hatt : env.attachHandler key.GroupVersionKind = .ok ())
    (hstart : env.startDelivery key.GroupVersionKind = .ok ())
    (hbl : env.backendList key = .error e) :
    watchList env s key =
      (.error e, markEstablished s key.GroupVersionKind, ⟨1, 1, 1, 1⟩) := by
  unfold watchList
  rw [if_neg hw, establishWatch_ok env s key.GroupVersionKind gvr hres hfor hatt hstart, hbl]

/-- Helper: first access with successful establishment but a failing
backend Get surfaces the backend error on the marked state. -/
theorem watchGet_backend_error (env : Env) (s : WatchState) (key : Key)
    (gvr : GroupVersionResource) (e : CacheError)
    (hw : key.GroupVersionKind ∉ s.watchedGVKs)
    (hres : env.resolve key.GroupVersionKind.GroupKind = .ok gvr)
    (hfor : env.forResource gvr = .ok ())
    (hatt : env.attachHandler key.GroupVersionKind = .ok ())
    (hstart : env.startDelivery key.GroupVersionKind = .ok ())
    (hbg : env.backendGet key = .error e) :
    watchGet env s key =
      (.error e, markEstablished s key.GroupVersionKind, ⟨1, 1, 1, 1⟩) := by
  unfold watchGet
  rw [if_neg hw, establishWatch_ok env s key.GroupVersionKind gvr hres hfor hatt hstart, hbg]

end cache

namespace cache

/-- Helper: event application never touches the Watched-Partitions Set
or the attachment and delivery records. -/
theorem applyEvent_sets (s : WatchState) (gvk : GroupVersionKind) (e : Event) :
    (applyEvent s gvk e).watchedGVKs = s.watchedGVKs ∧
    (applyEvent s gvk e).attachedHandlers = s.attachedHandlers ∧
    (applyEvent s gvk e).startedGVKs = s.startedGVKs := by
  cases e <;> exact ⟨rfl, rfl, rfl⟩

/-- Helper: a List call leaves the state unchanged or marks exactly the
key's partition as established. -/
theorem watchList_state_cases (env : Env) (s : WatchState) (key : Key) :
    (watchList env s key).2.1 = s ∨
    (watchList env s key).2.1 = markEstablished s key.GroupVersionKind := by
  by_cases hw : key.GroupVersionKind ∈ s.watchedGVKs
  · rw [watchList_watched env s key hw]
    exact Or.inl rfl
  · rcases establishWatch_cases env s key.GroupVersionKind with ⟨e, t, hE⟩ | hE
    · rw [watchList_establish_error env s key e t hw hE]
      exact Or.inl rfl
    · unfold watchList
      rw [if_neg hw, hE]
      cases env.backendList key with
      | error e2 => exact Or.inr rfl
      | ok objs => exact Or.inr rfl

/-- Helper: a Get call leaves the state unchanged or marks exactly the
key's partition as established. -/
theorem watchGet_state_cases (env : Env) (s : WatchState) (key : Key) :
    (watchGet env s key).2.1 = s ∨
    (watchGet env s key).2.1 = markEstablished s key.GroupVersionKind := by
  by_cases hw : key.GroupVersionKind ∈ s.watchedGVKs
  · rw [watchGet_watched env s key hw]
    cases queryCache s.cachedObjects key.GroupVersionKind key.Namespace
        (some key.Name) with
    | nil => exact Or.inl rfl
    | cons o rest => exact Or.inl rfl
  · rcases establishWatch_cases env s key.GroupVersionKind with ⟨e, t, hE⟩ | hE
    · rw [watchGet_establish_error env s key e t hw hE]
      exact Or.inl rfl
    · unfold watchGet
      rw [if_neg hw, hE]
      cases env.backendGet key with
      | error e2 => exact Or.inr rfl
      | ok o => exact Or.inr rfl

/-- Helper: marking a partition established preserves the iff between
watched membership and attached-and-started membership. -/
theorem markEstablished_invariant (s : WatchState) (gvk : GroupVersionKind)
    (h : ∀ x, x ∈ s.watchedGVKs ↔ x ∈ s.attachedHandlers ∧ x ∈ s.startedGVKs) :
    ∀ x, x ∈ (markEstablished s gvk).watchedGVKs ↔
      x ∈ (markEstablished s gvk).attachedHandlers ∧
      x ∈ (markEstablished s gvk).startedGVKs := by
  intro x
  simp only [markEstablished, List.mem_cons]
  constructor
  · rintro (hx | hx)
    · exact ⟨Or.inl hx, Or.inl hx⟩
    · rcases (h x).mp hx with ⟨h1, h2⟩
      exact ⟨Or.inr h1, Or.inr h2⟩
  · rintro ⟨h1 | h1, h2 | h2⟩
    · exact Or.inl h1
    · exact Or.inl h1
    · exact Or.inl h2
    · exact Or.inr ((h x).mpr ⟨h1, h2⟩)

/-- Helper: every reachable state satisfies the watched-iff-established
invariant. -/
theorem reachable_invariant (s : WatchState) (h : Reachable s) :
    ∀ x, x ∈ s.watchedGVKs ↔ x ∈ s.attachedHandlers ∧ x ∈ s.startedGVKs := by
  induction h with
  | init => intro x; simp [initWatch]
  | listStep env key s0 _ ih =>
    rcases watchList_state_cases env s0 key with hc | hc
    · rw [hc]; exact ih
    · rw [hc]; exact markEstablished_invariant s0 key.GroupVersionKind ih
  | getStep env key s0 _ ih =>
    rcases watchGet_state_cases env s0 key with hc | hc
    · rw [hc]; exact ih
    · rw [hc]; exact markEstablished_invariant s0 key.GroupVersionKind ih
  | eventStep gvk e s0 _ ih =>
    intro x
    rcases applyEvent_sets s0 gvk e with ⟨h1, h2, h3⟩
    rw [h1, h2, h3]
    exact ih x

/-- Helper: an unwatched partition that is watched after a List call
implies every establishment step succeeded. -/
theorem watchList_marks_only_on_success (env : Env) (s : WatchState) (key : Key)
    (hw : key.GroupVersionKind ∉ s.watchedGVKs)
    (hm : key.GroupVersionKind ∈ (watchList env s key).2.1.watchedGVKs) :
    ∃ gvr, env.resolve key.GroupVersionKind.GroupKind = .ok gvr ∧
      env.forResource gvr = .ok () ∧
      env.attachHandler key.GroupVersionKind = .ok () ∧
      env.startDelivery key.GroupVersionKind = .ok () := by
  rcases establishWatch_cases env s key.GroupVersionKind with ⟨e, t, hE⟩ | hE
  · rw [watchList_establish_error env s key e t hw hE] at hm
    exact absurd hm hw
  · rcases establishWatch_ok_inv env s key.GroupVersionKind
      (markEstablished s key.GroupVersionKind) ⟨1, 1, 1, 0⟩ hE with
      ⟨⟨gvr, hr, hf⟩, ha, hd, _, _⟩
    exact ⟨gvr, hr, hf, ha, hd⟩

end cache

namespace cache

/-- Helper: upserting the same object twice equals upserting it once. -/
theorem upsertUID_idem (o : Object) (m : ObjectMap) :
    upsertUID o (upsertUID o m) = upsertUID o m := by
  induction m with
  | nil => simp [upsertUID]
  | cons p rest ih =>
    by_cases hp : p.1 = o.UID
    · simp [upsertUID, hp]
    · simp [upsertUID, hp, ih]

/-- Helper: upserting the same object twice into the two-level store
equals upserting it once. -/
theorem cacheUpsert_idem (gvk : GroupVersionKind) (o : Object)
    (c : CacheContents) :
    cacheUpsert gvk o (cacheUpsert gvk o c) = cacheUpsert gvk o c := by
  induction c with
  | nil => simp [cacheUpsert, upsertUID]
  | cons p rest ih =>
    by_cases hp : p.1 = gvk
    · simp [cacheUpsert, hp, upsertUID_idem]
    · simp [cacheUpsert, hp, ih]

/-- Helper: removing an absent UID from an object map is the identity. -/
theorem removeUID_noop (u : UID) (m : ObjectMap)
    (h : containsUID m u = false) : removeUID u m = m := by
  induction m with
  | nil => rfl
  | cons p rest ih =>
    simp only [containsUID, Bool.or_eq_false_iff, beq_eq_false_iff_ne] at h
    simp [removeUID, h.1, ih h.2]

/-- Helper: entries surviving removeUID were present before and are not
keyed by the removed UID. -/
theorem removeUID_mem (u : UID) (m : ObjectMap) (q : UID × Object)
    (h : q ∈ removeUID u m) : q ∈ m ∧ q.1 ≠ u := by
  induction m with
  | nil => simp [removeUID] at h
  | cons p rest ih =>
    by_cases hp : p.1 = u
    · rw [removeUID, if_pos hp] at h
      rcases ih h with ⟨h1, h2⟩
      exact ⟨List.mem_cons_of_mem p h1, h2⟩
    · rw [removeUID, if_neg hp] at h
      rcases List.mem_cons.mp h with h1 | h1
      · subst h1
        exact ⟨List.mem_cons_self q rest, hp⟩
      · rcases ih h1 with ⟨h2, h3⟩
        exact ⟨List.mem_cons_of_mem p h2, h3⟩

/-- Helper: removing a UID that appears in no entry of the partition is
the identity on the two-level store. -/
theorem cacheRemove_noop (gvk : GroupVersionKind) (u : UID)
    (c : CacheContents)
    (h : ∀ p ∈ c, p.1 = gvk → containsUID p.2 u = false) :
    cacheRemove gvk u c = c := by
  induction c with
  | nil => rfl
  | cons p rest ih =>
    by_cases hp : p.1 = gvk
    · rw [cacheRemove, if_pos hp,
        removeUID_noop u p.2 (h p (List.mem_cons_self p rest) hp),
        ih (fun q hq hq2 => h q (List.mem_cons_of_mem p hq) hq2)]
    · rw [cacheRemove, if_neg hp,
        ih (fun q hq hq2 => h q (List.mem_cons_of_mem p hq) hq2)]

/-- Helper: looking up a partition after cacheRemove returns the removed
map of the original lookup. -/
theorem lookupGVK_cacheRemove (gvk : GroupVersionKind) (u : UID)
    (c : CacheContents) :
    lookupGVK (cacheRemove gvk u c) gvk =
      Option.map (removeUID u) (lookupGVK c gvk) := by
  induction c with
  | nil => rfl
  | cons p rest ih =>
    by_cases hp : p.1 = gvk
    · rw [cacheRemove, if_pos hp]
      rw [lookupGVK, if_pos hp, lookupGVK, if_pos hp]
      rfl
    · rw [cacheRemove, if_neg hp]
      rw [lookupGVK, if_neg hp, lookupGVK, if_neg hp, ih]

/-- Helper: a successful lookup comes from an entry of the store. -/
theorem lookupGVK_mem (c : CacheContents) (gvk : GroupVersionKind)
    (m : ObjectMap) (h : lookupGVK c gvk = some m) :
    ∃ p ∈ c, p.1 = gvk ∧ p.2 = m := by
  induction c with
  | nil => simp [lookupGVK] at h
  | cons p rest ih =>
    by_cases hp : p.1 = gvk
    · rw [lookupGVK, if_pos hp, Option.some.injEq] at h
      exact ⟨p, List.mem_cons_self p rest, hp, h⟩
    · rw [lookupGVK, if_neg hp] at h
      rcases ih h with ⟨q, hq, hq1, hq2⟩
      exact ⟨q, List.mem_cons_of_mem p hq, hq1, hq2⟩

end cache

namespace cache

/-- Helper: List calls on a watched partition never change state or
attach handlers, however many are issued. -/
theorem runLists_watched (env : Env) (key : Key) (n : Nat) (s : WatchState)
    (hw : key.GroupVersionKind ∈ s.watchedGVKs) :
    runLists env key n s = (s, 0) := by
  induction n with
  | zero => rfl
  | succ k ih =>
    rw [runLists, watchList_watched env s key hw]
    simp only [ih]
    rfl

/-- Helper: a first access with successful establishment marks the
partition and attaches exactly once, whatever the backend answers. -/
theorem watchList_first_access (env : Env) (s : WatchState) (key : Key)
    (gvr : GroupVersionResource)
    (hw : key.GroupVersionKind ∉ s.watchedGVKs)
    (hres : env.resolve key.GroupVersionKind.GroupKind = .ok gvr)
    (hfor : env.forResource gvr = .ok ())
    (hatt : env.attachHandler key.GroupVersionKind = .ok ())
    (hstart : env.startDelivery key.GroupVersionKind = .ok ()) :
    (watchList env s key).2.1 = markEstablished s key.GroupVersionKind ∧
    (watchList env s key).2.2.attachments = 1 := by
  unfold watchList
  rw [if_neg hw, establishWatch_ok env s key.GroupVersionKind gvr hres hfor hatt hstart]
  cases env.backendList key with
  | error e => exact ⟨rfl, rfl⟩
  | ok objs => exact ⟨rfl, rfl⟩

/-- Helper: after a fully successful establishment the key's partition
is in the Watched-Partitions Set, whatever the backend answers. -/
theorem watchList_marks (env : Env) (s : WatchState) (key : Key)
    (gvr : GroupVersionResource)
    (hw : key.GroupVersionKind ∉ s.watchedGVKs)
    (hres : env.resolve key.GroupVersionKind.GroupKind = .ok gvr)
    (hfor : env.forResource gvr = .ok ())
    (hatt : env.attachHandler key.GroupVersionKind = .ok ())
    (hstart : env.startDelivery key.GroupVersionKind = .ok ()) :
    key.GroupVersionKind ∈ (watchList env s key).2.1.watchedGVKs := by
  rw [(watchList_first_access env s key gvr hw hres hfor hatt hstart).1]
  exact List.mem_cons_self _ _

/-- Helper: the objects of a partition after a delete come from the
original map with the deleted UID's entries removed. -/
theorem cachedValues_cacheRemove_mem (gvk : GroupVersionKind) (u : UID)
    (c : CacheContents) (o : Object)
    (ho : o ∈ cachedValues (cacheRemove gvk u c) gvk) :
    ∃ m, lookupGVK c gvk = some m ∧ ∃ q ∈ removeUID u m, q.2 = o := by
  unfold cachedValues at ho
  rw [lookupGVK_cacheRemove] at ho
  cases hL : lookupGVK c gvk with
  | none => rw [hL] at ho; simp at ho
  | some m =>
    rw [hL] at ho
    simp only [Option.map_some'] at ho
    rcases List.mem_map.mp ho with ⟨q, hq, hq2⟩
    exact ⟨m, rfl, q, hq, hq2⟩

end cache

namespace clusteroverview

/-- Helper: when every link resolves, buildRows returns one row per
terminal. -/
theorem buildRows_ok_length (opts : Options) (ts : List Terminal)
    (h : ∀ t ∈ ts, cache.exceptOk (linkFor opts t) = true) :
    ∃ rows, buildRows opts ts = .ok rows ∧ rows.length = ts.length := by
  induction ts with
  | nil => exact ⟨[], rfl, rfl⟩
  | cons t rest ih =>
    have ht := h t (List.mem_cons_self t rest)
    cases hl : linkFor opts t with
    | error e => rw [hl] at ht; simp [cache.exceptOk] at ht
    | ok l =>
      rcases ih (fun q hq => h q (List.mem_cons_of_mem t hq)) with ⟨rows, hr, hlen⟩
      refine ⟨rowFor t l :: rows, ?_, by simp [hlen]⟩
      simp only [buildRows]
      rw [hl, hr]

/-- Helper: when some link fails, buildRows returns the error of a
failing terminal. -/
theorem buildRows_error (opts : Options) (ts : List Terminal)
    (h : ∃ t ∈ ts, cache.exceptOk (linkFor opts t) = false) :
    ∃ e, buildRows opts ts = .error e ∧
      ∃ t ∈ ts, linkFor opts t = .error e := by
  induction ts with
  | nil => simp at h
  | cons t rest ih =>
    cases hl : linkFor opts t with
    | error e =>
      refine ⟨e, ?_, t, List.mem_cons_self t rest, hl⟩
      simp only [buildRows]
      rw [hl]
    | ok l =>
      have h2 : ∃ q ∈ rest, cache.exceptOk (linkFor opts q) = false := by
        rcases h with ⟨q, hq, hqe⟩
        rcases List.mem_cons.mp hq with hq1 | hq2
        · subst hq1
          rw [hl] at hqe
          simp [cache.exceptOk] at hqe
        · exact ⟨q, hq2, hqe⟩
      rcases ih h2 with ⟨e, he, q, hq, hql⟩
      refine ⟨e, ?_, q, List.mem_cons_of_mem t hq, hql⟩
      simp only [buildRows]
      rw [hl, he]

end clusteroverview

namespace cache

/-- C1: for a Key whose Partition is unwatched, a single List or Get
performs exactly one resolution, one handler attachment, one delivery
start and one backend call, returns the backend result verbatim, and
leaves the Partition watched. -/
theorem first_access_delegates (env : Env) (s : WatchState) (key : Key)
    (gvr : GroupVersionResource) (objs : List Object) (o : Object)
    (hw : key.GroupVersionKind ∉ s.watchedGVKs)
    (hres : env.resolve key.GroupVersionKind.GroupKind = .ok gvr)
    (hfor : env.forResource gvr = .ok ())
    (hatt : env.attachHandler key.GroupVersionKind = .ok ())
    (hstart : env.startDelivery key.GroupVersionKind = .ok ())
    (hbl : env.backendList key = .ok objs)
    (hbg : env.backendGet key = .ok o) :
    (watchList env s key).1 = .ok objs ∧
    (watchList env s key).2.2 = ⟨1, 1, 1, 1⟩ ∧
    key.GroupVersionKind ∈ (watchList env s key).2.1.watchedGVKs ∧
    (watchGet env s key).1 = .ok o ∧
    (watchGet env s key).2.2 = ⟨1, 1, 1, 1⟩ ∧
    key.GroupVersionKind ∈ (watchGet env s key).2.1.watchedGVKs := by
  rw [watchList_success env s key gvr objs hw hres hfor hatt hstart hbl,
      watchGet_success env s key gvr o hw hres hfor hatt hstart hbg]
  exact ⟨rfl, rfl, List.mem_cons_self _ _, rfl, rfl, List.mem_cons_self _ _⟩

/-- C1 witness: the scenario of Test_WatchList_not_cached on a fresh
Watch. -/
theorem first_access_delegates_w :
    (watchList demoEnv initWatch listKey).1 = .ok [pod1, pod2] ∧
    (watchList demoEnv initWatch listKey).2.2 = ⟨1, 1, 1, 1⟩ :=
  ⟨(first_access_delegates demoEnv initWatch listKey podGVR [pod1, pod2] pod1
      (by decide) rfl rfl rfl rfl rfl rfl).1,
   (first_access_delegates demoEnv initWatch listKey podGVR [pod1, pod2] pod1
      (by decide) rfl rfl rfl rfl rfl rfl).2.1⟩

/-- C2: once a Partition is watched, List and Get are answered from the
cache store alone with no collaborator calls and no state change, and
List returns exactly the cached objects of the Partition matching the
Key's namespace. -/
theorem watched_reads_cache_only (env : Env) (s : WatchState) (key : Key)
    (hw : key.GroupVersionKind ∈ s.watchedGVKs) :
    watchList env s key =
      (.ok (queryCache s.cachedObjects key.GroupVersionKind key.Namespace none),
       s, Trace.zero) ∧
    (∀ o, o ∈ queryCache s.cachedObjects key.GroupVersionKind key.Namespace none ↔
      o ∈ cachedValues s.cachedObjects key.GroupVersionKind ∧
      o.Namespace = key.Namespace) ∧
    (watchGet env s key).2 = (s, Trace.zero) := by
  refine ⟨watchList_watched env s key hw, ?_, ?_⟩
  · intro o
    simp [queryCache, matchesQuery, List.mem_filter]
  · rw [watchGet_watched env s key hw]
    cases queryCache s.cachedObjects key.GroupVersionKind key.Namespace
        (some key.Name) with
    | nil => rfl
    | cons o rest => rfl

/-- C2 witness: the scenario of Test_WatchList_cached on a seeded
watched state. -/
theorem watched_reads_cache_only_w :
    watchList demoEnv cachedState listKey =
      (.ok (queryCache cachedState.cachedObjects listKey.GroupVersionKind
        listKey.Namespace none), cachedState, Trace.zero) :=
  (watched_reads_cache_only demoEnv cachedState listKey (by decide)).1

/-- C3: in every reachable state a Partition is watched iff its handler
is attached and delivery started, and an unwatched Partition becomes
watched through List only when resolution, stream creation, handler
attachment and delivery start all succeeded. -/
theorem watched_iff_attached_started (s : WatchState) (h : Reachable s) :
    (∀ gvk, gvk ∈ s.watchedGVKs ↔
      gvk ∈ s.attachedHandlers ∧ gvk ∈ s.startedGVKs) ∧
    (∀ env key, key.GroupVersionKind ∉ s.watchedGVKs →
      key.GroupVersionKind ∈ (watchList env s key).2.1.watchedGVKs →
      ∃ gvr, env.resolve key.GroupVersionKind.GroupKind = .ok gvr ∧
        env.forResource gvr = .ok () ∧
        env.attachHandler key.GroupVersionKind = .ok () ∧
        env.startDelivery key.GroupVersionKind = .ok ()) := by
  refine ⟨reachable_invariant s h, ?_⟩
  intro env key hw hm
  exact watchList_marks_only_on_success env s key hw hm

/-- C3 witness: the invariant evaluated on the reachable state after the
first List call of the tests. -/
theorem watched_iff_attached_started_w :
    podGVK ∈ (watchList demoEnv initWatch listKey).2.1.watchedGVKs ↔
      podGVK ∈ (watchList demoEnv initWatch listKey).2.1.attachedHandlers ∧
      podGVK ∈ (watchList demoEnv initWatch listKey).2.1.startedGVKs :=
  (watched_iff_attached_started (watchList demoEnv initWatch listKey).2.1
    (Reachable.listStep demoEnv listKey initWatch Reachable.init)).1 podGVK

/-- C4: if any establishment step fails on an unwatched Partition, List
and Get return that error, the state is unchanged (no watched mark, no
attached handler), and a later call with healthy collaborators succeeds
in establishing the watch. -/
theorem establishment_failure_no_mutation (env : Env) (s : WatchState)
    (key : Key) (e : CacheError) (t : Trace)
    (hw : key.GroupVersionKind ∉ s.watchedGVKs)
    (hE : establishWatch env s key.GroupVersionKind = (.error e, t)) :
    watchList env s key = (.error e, s, t) ∧
    watchGet env s key = (.error e, s, t) ∧
    key.GroupVersionKind ∉ (watchList env s key).2.1.watchedGVKs ∧
    (watchList env s key).2.1.attachedHandlers = s.attachedHandlers ∧
    (∀ env2 gvr, env2.resolve key.GroupVersionKind.GroupKind = .ok gvr →
      env2.forResource gvr = .ok () →
      env2.attachHandler key.GroupVersionKind = .ok () →
      env2.startDelivery key.GroupVersionKind = .ok () →
      key.GroupVersionKind ∈
        (watchList env2 (watchList env s key).2.1 key).2.1.watchedGVKs) := by
  have h1 := watchList_establish_error env s key e t hw hE
  have h2 := watchGet_establish_error env s key e t hw hE
  rw [h1, h2]
  refine ⟨rfl, rfl, hw, rfl, ?_⟩
  intro env2 gvr hres hfor hatt hstart
  exact watchList_marks env2 s key gvr hw hres hfor hatt hstart

/-- C4 witness: a resolver failure on a fresh Watch leaves it untouched. -/
theorem establishment_failure_no_mutation_w :
    watchList failResolveEnv initWatch listKey =
      (.error (CacheError.resolutionError "unknown kind"), initWatch,
       ⟨1, 0, 0, 0⟩) :=
  (establishment_failure_no_mutation failResolveEnv initWatch listKey
    (CacheError.resolutionError "unknown kind") ⟨1, 0, 0, 0⟩
    (by decide) rfl).1

/-- C5: applying the same Add or Update event twice equals applying it
once, Add and Update coincide (both upsert by UID), and replaying an
Add any positive number of times converges to a single application. -/
theorem event_application_idempotent (s : WatchState)
    (gvk : GroupVersionKind) (o : Object) (n : Nat) :
    applyEvent (applyEvent s gvk (Event.add o)) gvk (Event.add o) =
      applyEvent s gvk (Event.add o) ∧
    applyEvent (applyEvent s gvk (Event.update o)) gvk (Event.update o) =
      applyEvent s gvk (Event.update o) ∧
    applyEvent s gvk (Event.add o) = applyEvent s gvk (Event.update o) ∧
    replayAdd gvk o (n + 1) s = applyEvent s gvk (Event.add o) := by
  refine ⟨?_, ?_, rfl, ?_⟩
  · simp [applyEvent, cacheUpsert_idem]
  · simp [applyEvent, cacheUpsert_idem]
  · induction n with
    | zero => rfl
    | succ k ih =>
      rw [replayAdd, ih]
      simp [applyEvent, cacheUpsert_idem]

end cache

namespace cache

/-- C6: after a Delete event for a UID, a List of that Partition returns
no object with that UID, and deleting an absent UID is a no-op, not an
error. -/
theorem delete_convergence (s : WatchState) (gvk : GroupVersionKind) (u : UID)
    (hwf : ∀ p ∈ s.cachedObjects, ∀ q ∈ p.2, q.1 = q.2.UID) :
    (∀ ns name o,
      o ∈ queryCache (applyEvent s gvk (Event.delete u)).cachedObjects
        gvk ns name → o.UID ≠ u) ∧
    ((∀ p ∈ s.cachedObjects, p.1 = gvk → containsUID p.2 u = false) →
      applyEvent s gvk (Event.delete u) = s) := by
  constructor
  · intro ns name o ho
    have h1 : o ∈ cachedValues (cacheRemove gvk u s.cachedObjects) gvk :=
      (List.mem_filter.mp ho).1
    rcases cachedValues_cacheRemove_mem gvk u s.cachedObjects o h1 with
      ⟨m, hL, q, hq, hq2⟩
    rcases removeUID_mem u m q hq with ⟨hqm, hq1⟩
    rcases lookupGVK_mem s.cachedObjects gvk m hL with ⟨p, hp, hp1, hp2⟩
    have huid := hwf p hp q (hp2 ▸ hqm)
    rw [hq2] at huid
    rw [← huid]
    exact hq1
  · intro h
    show { s with cachedObjects := cacheRemove gvk u s.cachedObjects } = s
    rw [cacheRemove_noop gvk u s.cachedObjects h]

/-- C6 witness: deleting an absent UID from the seeded watched state is
a no-op. -/
theorem delete_convergence_w :
    applyEvent cachedState podGVK (Event.delete "uid-9") = cachedState :=
  (delete_convergence cachedState podGVK "uid-9" (by decide)).2 (by decide)

/-- C7: Get on a watched Partition with no matching cached object
reports the not-found condition (with no backend call and no state
change), a condition distinct from every generic error. -/
theorem get_notFound_distinct (env : Env) (s : WatchState) (key : Key)
    (hw : key.GroupVersionKind ∈ s.watchedGVKs)
    (hempty : queryCache s.cachedObjects key.GroupVersionKind key.Namespace
      (some key.Name) = []) :
    (watchGet env s key).1 = .error CacheError.notFound ∧
    (watchGet env s key).2 = (s, Trace.zero) ∧
    (∀ msg, CacheError.notFound ≠ CacheError.resolutionError msg ∧
      CacheError.notFound ≠ CacheError.establishmentError msg ∧
      CacheError.notFound ≠ CacheError.backendError msg) := by
  rw [watchGet_watched env s key hw, hempty]
  refine ⟨rfl, rfl, ?_⟩
  intro msg
  exact ⟨(fun h => nomatch h), (fun h => nomatch h), (fun h => nomatch h)⟩

/-- C7 witness: Get for the missing name pod3 on the seeded watched
state reports not-found. -/
theorem get_notFound_distinct_w :
    (watchGet demoEnv cachedState ⟨"test", "v1", "Pod", "pod3"⟩).1 =
      .error CacheError.notFound :=
  (get_notFound_distinct demoEnv cachedState ⟨"test", "v1", "Pod", "pod3"⟩
    (by decide) (by decide)).1

/-- C8: with establishment serialized by the guard, n + 1 sequential
first-access List calls for the same unwatched Partition attach the
event handler exactly once in total. -/
theorem concurrent_establishment_once (env : Env) (s : WatchState)
    (key : Key) (gvr : GroupVersionResource) (n : Nat)
    (hw : key.GroupVersionKind ∉ s.watchedGVKs)
    (hres : env.resolve key.GroupVersionKind.GroupKind = .ok gvr)
    (hfor : env.forResource gvr = .ok ())
    (hatt : env.attachHandler key.GroupVersionKind = .ok ())
    (hstart : env.startDelivery key.GroupVersionKind = .ok ()) :
    (runLists env key (n + 1) s).2 = 1 := by
  rcases watchList_first_access env s key gvr hw hres hfor hatt hstart with
    ⟨h1, h2⟩
  rw [runLists, h1, h2,
    runLists_watched env key n (markEstablished s key.GroupVersionKind)
      (List.mem_cons_self _ _)]
  rfl

/-- C8 witness: three racing List calls on a fresh Watch attach once. -/
theorem concurrent_establishment_once_w :
    (runLists demoEnv listKey 3 initWatch).2 = 1 :=
  concurrent_establishment_once demoEnv initWatch listKey podGVR 2
    (by decide) rfl rfl rfl rfl

/-- C9: a backend failure during first access after successful
establishment is returned to that caller, while the Partition is
watched, so any later call is served from the cache. -/
theorem backend_error_isolated (env : Env) (s : WatchState) (key : Key)
    (gvr : GroupVersionResource) (e : CacheError)
    (hw : key.GroupVersionKind ∉ s.watchedGVKs)
    (hres : env.resolve key.GroupVersionKind.GroupKind = .ok gvr)
    (hfor : env.forResource gvr = .ok ())
    (hatt : env.attachHandler key.GroupVersionKind = .ok ())
    (hstart : env.startDelivery key.GroupVersionKind = .ok ())
    (hbl : env.backendList key = .error e)
    (hbg : env.backendGet key = .error e) :
    (watchList env s key).1 = .error e ∧
    key.GroupVersionKind ∈ (watchList env s key).2.1.watchedGVKs ∧
    (watchGet env s key).1 = .error e ∧
    key.GroupVersionKind ∈ (watchGet env s key).2.1.watchedGVKs ∧
    (∀ env2, watchList env2 (watchList env s key).2.1 key =
      (.ok (queryCache (watchList env s key).2.1.cachedObjects
        key.GroupVersionKind key.Namespace none),
       (watchList env s key).2.1, Trace.zero)) := by
  rw [watchList_backend_error env s key gvr e hw hres hfor hatt hstart hbl,
      watchGet_backend_error env s key gvr e hw hres hfor hatt hstart hbg]
  refine ⟨rfl, List.mem_cons_self _ _, rfl, List.mem_cons_self _ _, ?_⟩
  intro env2
  exact watchList_watched env2 (markEstablished s key.GroupVersionKind) key
    (List.mem_cons_self _ _)

/-- C9 witness: a refused backend on a fresh Watch surfaces the error
yet leaves the pods partition watched. -/
theorem backend_error_isolated_w :
    (watchList failBackendEnv initWatch listKey).1 =
      .error (CacheError.backendError "connection refused") ∧
    listKey.GroupVersionKind ∈
      (watchList failBackendEnv initWatch listKey).2.1.watchedGVKs :=
  ⟨(backend_error_isolated failBackendEnv initWatch listKey podGVR
      (CacheError.backendError "connection refused")
      (by decide) rfl rfl rfl rfl rfl rfl).1,
   (backend_error_isolated failBackendEnv initWatch listKey podGVR
      (CacheError.backendError "connection refused")
      (by decide) rfl rfl rfl rfl rfl rfl).2.1⟩

end cache

namespace clusteroverview

/-- C10: Describe returns EmptyContentResponse with the error when
options.Link.ForGVK fails for some terminal, and otherwise a nil error
with one list holding the Terminals table with exactly one row per
terminal. -/
theorem terminal_describe_spec (opts : Options) :
    ((∃ t ∈ opts.terminals, cache.exceptOk (linkFor opts t) = false) →
      ∃ e, Describe opts = (EmptyContentResponse, some e) ∧
        ∃ t ∈ opts.terminals, linkFor opts t = .error e) ∧
    ((∀ t ∈ opts.terminals, cache.exceptOk (linkFor opts t) = true) →
      ∃ rows, Describe opts = (responseWith rows, none) ∧
        rows.length = opts.terminals.length) := by
  constructor
  · intro h
    rcases buildRows_error opts opts.terminals h with ⟨e, he, t, ht, hl⟩
    refine ⟨e, ?_, t, ht, hl⟩
    unfold Describe
    rw [he]
  · intro h
    rcases buildRows_ok_length opts opts.terminals h with ⟨rows, hr, hlen⟩
    refine ⟨rows, ?_, hlen⟩
    unfold Describe
    rw [hr]

/-- C10 witness: a failing link generator yields the empty response and
a healthy one yields a nil error. -/
theorem terminal_describe_spec_w :
    (Describe failOptions).1 = EmptyContentResponse ∧
    (Describe demoOptions).2 = none := by
  constructor
  · rcases (terminal_describe_spec failOptions).1
      ⟨demoTerminal, List.mem_cons_self _ _, rfl⟩ with ⟨e, he, _⟩
    rw [he]
  · rcases (terminal_describe_spec demoOptions).2 (by decide) with ⟨rows, hr, _⟩
    rw [hr]

end clusteroverview
